import Mathlib

/-!
Verification of the template engine and router of `webserver.py`.

The engine (`TemplateEngine._compile`) splits the template source on the
delimiters `<%`, `<%=`, `%>` (via `re.split(r'(<%=?|%>)', src)`), then walks
the token list with a mode flag (text / expr / code) and an indent counter,
emitting the source text of a Python function `_render`; `TemplateEngine.render`
then runs `exec(code, namespace)` with `namespace = dict(context, html=html)`
and returns `namespace["_render"]()`.

The embedding below mirrors this in two stages, exactly as the source does:

* `TemplateEngine.compileBody` reproduces the `_compile` loop.  The emitted
  lines are kept structured (`GenLine`), each paired with the column level at
  which it is emitted (`"    " * indent`, so a negative indent emits at
  column 0, modelled by `Int.toNat`).  The three header lines and the final
  `return ''.join(_buf)` line are the fixed `defRender`/`initBuf`/`defWrite`/
  `ret` lines of the generated module.

* The `exec` step is modelled by a small semantics of the Python fragment the
  generated code can contain: compiling the module (parsing each statement
  line and recovering the block structure from the indentation, as CPython
  does before running anything), then executing it.  Name resolution follows
  Python scoping: inside `_render`, names assigned anywhere in the function
  are locals (reading them unbound is an error), other names resolve in the
  exec namespace and then in the builtins; the model's builtins carry `str`,
  which is all the generated code uses.  `html.escape` is modelled by
  `htmlEscape` (the five standard replacements performed by `html.escape`
  with `quote=True`).  The expression evaluator covers the forms reachable
  from templates in this development: names, integer / string / boolean /
  None literals, attribute access and calls; textual reprs of non-primitive
  objects and further Python forms (operators, loops, parentheses) are out of
  scope and are not relied on by any theorem.

The router (`Router`) is a dict keyed by `(method.upper(), path)`; it is
modelled as a finite-map function, with `add` the dict store and `find` the
dict `.get`.
-/

namespace WebServer

/-- Errors of the modelled Python run: compile-time syntax errors
(`SyntaxError` / `IndentationError`), and the runtime errors the generated
code can raise. -/
inductive PyErr where
  | syntaxError (msg : String)
  | nameError (n : String)
  | unboundLocal (n : String)
  | typeError (msg : String)
  | attributeError (msg : String)
  | keyError (n : String)
  | recursionError
  deriving DecidableEq, Repr

/-- Expressions of the Python fragment reachable from the generated code. -/
inductive PExpr where
  | name (s : String)
  | intLit (n : Nat)
  | strLit (s : String)
  | boolLit (b : Bool)
  | noneLit
  | attr (e : PExpr) (field : String)
  | call (f : PExpr) (args : List PExpr)

/-- A statement line of the generated module, as CPython's parser sees it
(one generated line each). -/
inductive TStmt where
  | writeLit (s : String)
  | writeExpr (e : Option PExpr)
  | sIf (c : PExpr)
  | sElif (c : PExpr)
  | sElse
  | sAssign (n : String) (e : PExpr)
  | sExprStmt (e : PExpr)
  | defRender
  | initBuf
  | defWrite
  | ret

/-- Block-structured statements after indentation parsing.  An
`if`/`elif`/`else` chain is nested as CPython's AST nests it: each `elif`
becomes an `ifElse` in the else-slot of the previous one. -/
inductive Blk where
  | writeLit (s : String)
  | writeExpr (e : Option PExpr)
  | assign (n : String) (e : PExpr)
  | exprStmt (e : PExpr)
  | ifElse (c : PExpr) (thn : List Blk) (els : List Blk)
  | defRender (body : List Blk)
  | initBuf
  | defWrite
  | ret

/-- Runtime values.  `vModule "html"` is the injected `html` module,
`vBuiltin` the builtin `str` and the local `write` closure, `vMethod` a bound
method such as `html.escape`, `vFunc` the compiled `_render` function and
`vBufObj` the `_buf` list object (its contents live in the execution state). -/
inductive PValue where
  | vStr (s : String)
  | vInt (n : Int)
  | vBool (b : Bool)
  | vNone
  | vModule (name : String)
  | vBuiltin (name : String)
  | vMethod (modName : String) (field : String)
  | vFunc (body : List Blk)
  | vBufObj

/-- A Python dict / scope: finite mapping from names to values.  The source
only ever reads and stores single keys, so the function model is exact. -/
def Ctx : Type := String → Option PValue

def emptyCtx : Ctx := fun _ => none

def ctxSet (c : Ctx) (k : String) (v : PValue) : Ctx :=
  fun q => if q = k then some v else c q

/-! ## Lexer: `re.split(r'(<%=?|%>)', src)`

The regex scans left to right; at each position the alternative `<%=?`
(greedily taking the `=`) is tried before `%>`.  Captured delimiters are kept
in the token list, so the token list alternates text and delimiter tokens,
with empty strings between adjacent delimiters, exactly as `re.split`
produces them. -/

def splitTokens : List Char → List Char → List String
  | [], acc => [String.mk acc.reverse]
  | '<' :: '%' :: '=' :: rest, acc => String.mk acc.reverse :: "<%=" :: splitTokens rest []
  | '<' :: '%' :: rest, acc => String.mk acc.reverse :: "<%" :: splitTokens rest []
  | '%' :: '>' :: rest, acc => String.mk acc.reverse :: "%>" :: splitTokens rest []
  | c :: rest, acc => splitTokens rest (c :: acc)

def startsOpen : List Char → Bool
  | '<' :: '%' :: _ => true
  | _ => false

def startsClose : List Char → Bool
  | '%' :: '>' :: _ => true
  | _ => false

/-- Does the character list contain an opening delimiter `<%` (and therefore
possibly `<%=`)? -/
def hasOpen : List Char → Bool
  | [] => false
  | c :: rest => startsOpen (c :: rest) || hasOpen rest

/-- Does the character list contain the closing delimiter `%>`? -/
def hasClose : List Char → Bool
  | [] => false
  | c :: rest => startsClose (c :: rest) || hasClose rest

/-! ## `str.splitlines(True)`

Python splits on line boundaries keeping the line ends; `\r\n` is a single
boundary.  (Python also splits on a few rarer control characters; splitting
at more or fewer points is invisible to rendering, which concatenates the
parts back in order.) -/

def splitlinesKeep : List Char → List Char → List String
  | [], acc => if acc.isEmpty then [] else [String.mk acc.reverse]
  | '\r' :: '\n' :: rest, acc => String.mk ('\n' :: '\r' :: acc).reverse :: splitlinesKeep rest []
  | '\r' :: rest, acc => String.mk ('\r' :: acc).reverse :: splitlinesKeep rest []
  | '\n' :: rest, acc => String.mk ('\n' :: acc).reverse :: splitlinesKeep rest []
  | c :: rest, acc => splitlinesKeep rest (c :: acc)

def splitlinesTrue (s : String) : List String := splitlinesKeep s.data []

/-! ## The `_compile` loop -/

/-- The ASCII whitespace stripped by Python's `str.strip()` (space, tab and
the newline, carriage-return, vertical-tab and form-feed controls). -/
def pySpace (c : Char) : Bool :=
  c = ' ' || c = '\t' || c = '\n' || c = '\r' || c.toNat = 11 || c.toNat = 12

/-- Python's `str.strip()`. -/
def pyStrip (s : String) : String :=
  String.mk (((s.data.dropWhile pySpace).reverse.dropWhile pySpace).reverse)

/-- Python's `str.startswith` for a single prefix. -/
def strStartsWith (s pre : String) : Bool := pre.data.isPrefixOf s.data

/-- Python's `str.endswith` for a single suffix. -/
def strEndsWith (s suf : String) : Bool := suf.data.reverse.isPrefixOf s.data.reverse

/-- A line emitted by `_compile`, kept structured.  `writeLit part` stands
for the emitted text `write({part!r})`, `writeExpr e` for
`write(html.escape(str({e})))`, and `codeLine c` for the raw stripped
statement text. -/
inductive GenLine where
  | writeLit (s : String)
  | writeExpr (e : String)
  | codeLine (c : String)
  | defRender
  | initBuf
  | defWrite
  | ret
  deriving DecidableEq, Repr

/-- The lexer mode driven by the delimiter tokens. -/
inductive CMode where
  | text
  | expr
  | code
  deriving DecidableEq, Repr

structure CState where
  mode : CMode
  indent : Int
  lines : List (Nat × GenLine)
  deriving Repr

/-- One iteration of the `for tok in tokens` loop of `_compile`.  The emitted
column level is `"    " * indent`, which for a negative indent is column 0
(`Int.toNat`). -/
def compileTok (st : CState) (tok : String) : CState :=
  if tok = "<%" then { st with mode := CMode.code }
  else if tok = "<%=" then { st with mode := CMode.expr }
  else if tok = "%>" then { st with mode := CMode.text }
  else
    match st.mode with
    | CMode.text =>
        { st with lines := st.lines ++
            ((splitlinesTrue tok).filterMap fun part =>
              if part = "" then none else some (st.indent.toNat, GenLine.writeLit part)) }
    | CMode.expr =>
        { st with lines := st.lines ++ [(st.indent.toNat, GenLine.writeExpr (pyStrip tok))] }
    | CMode.code =>
        let c := pyStrip tok
        if c = "" then st
        else if c = "endif" then { st with indent := st.indent - 1 }
        else if strStartsWith c "else" || strStartsWith c "elif" then
          { st with lines := st.lines ++ [((st.indent - 1).toNat, GenLine.codeLine c)] }
        else
          { st with
              lines := st.lines ++ [(st.indent.toNat, GenLine.codeLine c)],
              indent := if strEndsWith c ":" then st.indent + 1 else st.indent }

/-- The body lines `_compile` appends between the fixed header and the fixed
`return ''.join(_buf)` footer. -/
def compileBody (src : String) : List (Nat × GenLine) :=
  ((splitTokens src.data []).foldl compileTok ⟨CMode.text, 1, []⟩).lines

/-- The full generated module: `def _render():` at column 0, the two header
lines and the footer at indent 1, and the compiled body lines in between. -/
def moduleLines (src : String) : List (Nat × GenLine) :=
  (0, GenLine.defRender) :: (1, GenLine.initBuf) :: (1, GenLine.defWrite) ::
    compileBody src ++ [(1, GenLine.ret)]

/-! ## The exec step, part 1: CPython's compile of the generated module

`exec(code, namespace)` first compiles the whole generated source: each line
is parsed and the indentation is turned into block structure; only then does
anything run.  The statement and expression grammars below cover the fragment
of Python reachable from the generated lines in this development (names,
literals, attribute access, calls, name assignments and the
`if`/`elif`/`else` keyword lines); Python forms outside the fragment
(operators, loops, non-name assignment targets, string escapes, parentheses
as grouping) are rejected as unmodelled, and no theorem relies on them. -/

def isIdentStart (c : Char) : Bool := c.isAlpha || c = '_'

def isIdentChar (c : Char) : Bool := c.isAlphanum || c = '_'

def skipSpaces (cs : List Char) : List Char := cs.dropWhile (fun c => c = ' ' || c = '\t')

def takeIdent : List Char → Option (String × List Char)
  | c :: rest =>
    if isIdentStart c then some (String.mk (c :: rest.takeWhile isIdentChar), rest.dropWhile isIdentChar)
    else none
  | [] => none

def pyKeywords : List String :=
  ["if", "elif", "else", "for", "while", "def", "return", "pass", "break",
   "continue", "import", "from", "class", "lambda", "and", "or", "not", "in",
   "is", "del", "global", "nonlocal", "try", "except", "finally", "with",
   "raise", "yield", "assert"]

def digitsVal (ds : List Char) : Nat := ds.foldl (fun n c => n * 10 + (c.toNat - 48)) 0

/-- Scan a string literal body up to the closing quote `q` (no escape
sequences; none occur in this development). -/
def takeStrLit (q : Char) : List Char → List Char → Option (String × List Char)
  | [], _ => none
  | c :: rest, acc => if c = q then some (String.mk acc.reverse, rest) else takeStrLit q rest (c :: acc)

mutual

/-- Parse one expression (an atom followed by its postfix chain). -/
def parseExprF : Nat → List Char → Except PyErr (PExpr × List Char)
  | 0, _ => .error PyErr.recursionError
  | fuel+1, cs =>
    match skipSpaces cs with
    | [] => .error (PyErr.syntaxError "invalid syntax")
    | c :: rest =>
      if c.isDigit then
        parsePostfix fuel (PExpr.intLit (digitsVal (c :: rest.takeWhile Char.isDigit)))
          (rest.dropWhile Char.isDigit)
      else if c = '"' || c.toNat = 39 then
        match takeStrLit c rest [] with
        | some (s, rem) => parsePostfix fuel (PExpr.strLit s) rem
        | none => .error (PyErr.syntaxError "unterminated string literal")
      else if isIdentStart c then
        let idStr := String.mk (c :: rest.takeWhile isIdentChar)
        let rem := rest.dropWhile isIdentChar
        if idStr = "True" then parsePostfix fuel (PExpr.boolLit true) rem
        else if idStr = "False" then parsePostfix fuel (PExpr.boolLit false) rem
        else if idStr = "None" then parsePostfix fuel PExpr.noneLit rem
        else if pyKeywords.contains idStr then .error (PyErr.syntaxError "invalid syntax")
        else parsePostfix fuel (PExpr.name idStr) rem
      else .error (PyErr.syntaxError "invalid syntax")

/-- Parse the postfix chain after an atom: attribute accesses `.field` and
call argument lists `( ... )`. -/
def parsePostfix : Nat → PExpr → List Char → Except PyErr (PExpr × List Char)
  | 0, _, _ => .error PyErr.recursionError
  | fuel+1, e, cs =>
    match skipSpaces cs with
    | '.' :: rest =>
      match takeIdent (skipSpaces rest) with
      | some (f, rem) => parsePostfix fuel (PExpr.attr e f) rem
      | none => .error (PyErr.syntaxError "invalid syntax")
    | '(' :: rest =>
      (match skipSpaces rest with
       | ')' :: rem => parsePostfix fuel (PExpr.call e []) rem
       | other => do
          let (args, rem) ← parseArgs fuel other []
          parsePostfix fuel (PExpr.call e args) rem)
    | other => .ok (e, other)

/-- Parse a nonempty comma-separated argument list up to the closing
parenthesis. -/
def parseArgs : Nat → List Char → List PExpr → Except PyErr (List PExpr × List Char)
  | 0, _, _ => .error PyErr.recursionError
  | fuel+1, cs, acc => do
    let (a, rem) ← parseExprF fuel cs
    match skipSpaces rem with
    | ',' :: rest => parseArgs fuel rest (acc ++ [a])
    | ')' :: rest => .ok (acc ++ [a], rest)
    | _ => .error (PyErr.syntaxError "invalid syntax")

end

/-- Parse a complete expression, requiring no leftover input. -/
def parseExprTop (s : String) : Except PyErr PExpr := do
  let (e, rem) ← parseExprF (2 * s.data.length + 8) s.data
  if (skipSpaces rem).isEmpty then .ok e else .error (PyErr.syntaxError "invalid syntax")

def firstWord (t : String) : String :=
  match t.data with
  | c :: rest => if isIdentStart c then String.mk (c :: rest.takeWhile isIdentChar) else ""
  | [] => ""

/-- Position of the first assignment `=` in a statement line (skipping the
two-character comparison operators, as CPython's tokenizer does). -/
def findAssignEq : List Char → Nat → Option Nat
  | [], _ => none
  | '=' :: '=' :: rest, i => findAssignEq rest (i + 2)
  | '<' :: '=' :: rest, i => findAssignEq rest (i + 2)
  | '>' :: '=' :: rest, i => findAssignEq rest (i + 2)
  | '!' :: '=' :: rest, i => findAssignEq rest (i + 2)
  | '=' :: _, i => some i
  | _ :: rest, i => findAssignEq rest (i + 1)

/-- Is the string exactly one identifier (a valid plain assignment target)? -/
def isIdentString (t : String) : Bool :=
  match takeIdent t.data with
  | some (w, rem) => rem.isEmpty && w = t && !(pyKeywords.contains t)
  | none => false

/-- Parse one stripped statement line of a `<% ... %>` tag, as CPython parses
the generated line.  Keyword lines require their trailing colon (`if x`
without it is a syntax error); other supported forms are a plain-name
assignment and an expression statement. -/
def parseCode (t : String) : Except PyErr TStmt :=
  let w := firstWord t
  if w = "if" || w = "elif" then
    if strEndsWith t ":" then do
      let e ← parseExprTop (String.mk ((t.data.drop w.length).dropLast))
      .ok (if w = "if" then TStmt.sIf e else TStmt.sElif e)
    else .error (PyErr.syntaxError "expected colon")
  else if w = "else" then
    if String.mk (skipSpaces (t.data.drop 4)) = ":" then .ok TStmt.sElse
    else .error (PyErr.syntaxError "expected colon")
  else if pyKeywords.contains w then
    .error (PyErr.syntaxError "statement form outside the modelled fragment")
  else
    match findAssignEq t.data 0 with
    | some i =>
      let lhs := pyStrip (String.mk (t.data.take i))
      if isIdentString lhs then do
        let e ← parseExprTop (String.mk (t.data.drop (i + 1)))
        .ok (TStmt.sAssign lhs e)
      else .error (PyErr.syntaxError "assignment target outside the modelled fragment")
    | none => do
      let e ← parseExprTop t
      .ok (TStmt.sExprStmt e)

/-- Parse one generated line into a statement.  An empty expression tag
generates `write(html.escape(str()))`, whose zero-argument `str()` call is
kept as `writeExpr none`. -/
def parseGenLine : Nat × GenLine → Except PyErr (Nat × TStmt)
  | (lvl, GenLine.writeLit s) => .ok (lvl, TStmt.writeLit s)
  | (lvl, GenLine.writeExpr e) =>
    if e = "" then .ok (lvl, TStmt.writeExpr none)
    else do
      let pe ← parseExprTop e
      .ok (lvl, TStmt.writeExpr (some pe))
  | (lvl, GenLine.codeLine c) => do
    let s ← parseCode c
    .ok (lvl, s)
  | (lvl, GenLine.defRender) => .ok (lvl, TStmt.defRender)
  | (lvl, GenLine.initBuf) => .ok (lvl, TStmt.initBuf)
  | (lvl, GenLine.defWrite) => .ok (lvl, TStmt.defWrite)
  | (lvl, GenLine.ret) => .ok (lvl, TStmt.ret)

def mapMExc (f : α → Except ε β) : List α → Except ε (List β)
  | [] => .ok []
  | a :: t => do
    let b ← f a
    let bs ← mapMExc f t
    .ok (b :: bs)

mutual

/-- Recover the block structure of the generated module from the line levels,
as CPython's tokenizer INDENT/DEDENT pass does.  All emitted columns are
multiples of four and every block opens exactly one level deeper, so a line
at a smaller level always dedents to a valid enclosing level; a line deeper
than expected is an indentation error, and a keyword block requires a
nonempty indented body.  `return` outside a `def` is a compile-time error. -/
def parseB : Nat → Nat → Bool → List (Nat × TStmt) → Except PyErr (List Blk × List (Nat × TStmt))
  | 0, _, _, _ => .error PyErr.recursionError
  | _+1, _, _, [] => .ok ([], [])
  | fuel+1, lvl, inFn, (l, s) :: rest =>
    if l < lvl then .ok ([], (l, s) :: rest)
    else if lvl < l then .error (PyErr.syntaxError "unexpected indent")
    else
      match s with
      | TStmt.sElif _ => .error (PyErr.syntaxError "invalid syntax")
      | TStmt.sElse => .error (PyErr.syntaxError "invalid syntax")
      | TStmt.sIf c => do
        let (body, r1) ← parseB fuel (lvl + 1) inFn rest
        if body.isEmpty then .error (PyErr.syntaxError "expected an indented block")
        else do
          let (els, r2) ← parseElse fuel lvl inFn r1
          let (bs, r3) ← parseB fuel lvl inFn r2
          .ok (Blk.ifElse c body els :: bs, r3)
      | TStmt.defRender => do
        let (body, r1) ← parseB fuel (lvl + 1) true rest
        if body.isEmpty then .error (PyErr.syntaxError "expected an indented block")
        else do
          let (bs, r2) ← parseB fuel lvl inFn r1
          .ok (Blk.defRender body :: bs, r2)
      | TStmt.ret =>
        if inFn then do
          let (bs, r1) ← parseB fuel lvl inFn rest
          .ok (Blk.ret :: bs, r1)
        else .error (PyErr.syntaxError "return outside function")
      | TStmt.writeLit t => do
        let (bs, r1) ← parseB fuel lvl inFn rest
        .ok (Blk.writeLit t :: bs, r1)
      | TStmt.writeExpr e => do
        let (bs, r1) ← parseB fuel lvl inFn rest
        .ok (Blk.writeExpr e :: bs, r1)
      | TStmt.sAssign n e => do
        let (bs, r1) ← parseB fuel lvl inFn rest
        .ok (Blk.assign n e :: bs, r1)
      | TStmt.sExprStmt e => do
        let (bs, r1) ← parseB fuel lvl inFn rest
        .ok (Blk.exprStmt e :: bs, r1)
      | TStmt.initBuf => do
        let (bs, r1) ← parseB fuel lvl inFn rest
        .ok (Blk.initBuf :: bs, r1)
      | TStmt.defWrite => do
        let (bs, r1) ← parseB fuel lvl inFn rest
        .ok (Blk.defWrite :: bs, r1)

/-- Parse the `elif`/`else` continuation of an `if` at level `lvl`, nesting
each `elif` into the else-slot of the previous branch exactly as CPython's
AST does. -/
def parseElse : Nat → Nat → Bool → List (Nat × TStmt) → Except PyErr (List Blk × List (Nat × TStmt))
  | 0, _, _, _ => .error PyErr.recursionError
  | fuel+1, lvl, inFn, (l, TStmt.sElif c) :: rest =>
    if l = lvl then do
      let (body, r1) ← parseB fuel (lvl + 1) inFn rest
      if body.isEmpty then .error (PyErr.syntaxError "expected an indented block")
      else do
        let (els, r2) ← parseElse fuel lvl inFn r1
        .ok ([Blk.ifElse c body els], r2)
    else .ok ([], (l, TStmt.sElif c) :: rest)
  | fuel+1, lvl, inFn, (l, TStmt.sElse) :: rest =>
    if l = lvl then do
      let (body, r1) ← parseB fuel (lvl + 1) inFn rest
      if body.isEmpty then .error (PyErr.syntaxError "expected an indented block")
      else .ok (body, r1)
    else .ok ([], (l, TStmt.sElse) :: rest)
  | _+1, _, _, other => .ok ([], other)

end

/-! ## The exec step, part 2: running the compiled module

The execution state carries the exec namespace (`globals`), the local scope
of the running function, the statically-computed set of function-local names
(in Python, every name assigned anywhere in a function body is local to it),
the contents of the `_buf` list, and the function's return value once `return`
has run.  Textual reprs of non-string primitives follow `str()`; reprs of
modules, functions and lists are abbreviated placeholders that no theorem
relies on. -/

structure ExecSt where
  globals : Ctx
  locals : Ctx
  inFn : Bool
  assigned : List String
  buf : List String
  returned : Option PValue

/-- `str(v)` for the modelled values. -/
def pyStr : PValue → String
  | PValue.vStr s => s
  | PValue.vInt n => toString n
  | PValue.vBool b => if b then "True" else "False"
  | PValue.vNone => "None"
  | PValue.vModule n => "<module " ++ n ++ ">"
  | PValue.vBuiltin n => "<built-in " ++ n ++ ">"
  | PValue.vMethod m f => "<bound method " ++ m ++ "." ++ f ++ ">"
  | PValue.vFunc _ => "<function _render>"
  | PValue.vBufObj => "<list>"

/-- Python truthiness for the modelled values (the `_buf` list only ever
feeds `join`, so its truthiness is immaterial). -/
def pyTruthy : PValue → Bool
  | PValue.vBool b => b
  | PValue.vInt n => !(n = 0)
  | PValue.vStr s => !(s = "")
  | PValue.vNone => false
  | _ => true

/-- One character of `html.escape(s)` with its default `quote=True`: the five
replacements `&` `<` `>` `"` and the apostrophe.  `html.escape` performs the
replacements with `&` first, so a character-wise map over the original string
is exactly equivalent. -/
def escapeChar (c : Char) : String :=
  if c = '&' then "&amp;"
  else if c = '<' then "&lt;"
  else if c = '>' then "&gt;"
  else if c = '"' then "&quot;"
  else if c.toNat = 39 then "&#x27;"
  else String.mk [c]

/-- The model of `html.escape` with its default second argument. -/
def htmlEscape (s : String) : String := String.join (s.data.map escapeChar)

/-- The builtins reachable from the generated code (`exec` exposes the full
builtins module; the generated lines and the templates in this development
only ever reach `str`, so only it is carried). -/
def pyBuiltins : Ctx := fun k => if k = "str" then some (PValue.vBuiltin "str") else none

/-- Python name resolution: inside a function, a name assigned anywhere in
the function is local (unbound reads raise `UnboundLocalError`); any other
name resolves in the exec namespace and then in the builtins. -/
def resolveName (st : ExecSt) (n : String) : Except PyErr PValue :=
  if st.inFn && st.assigned.contains n then
    match st.locals n with
    | some v => .ok v
    | none => .error (PyErr.unboundLocal n)
  else
    match st.globals n with
    | some v => .ok v
    | none =>
      match pyBuiltins n with
      | some v => .ok v
      | none => .error (PyErr.nameError n)

/-- An assignment binds in the local scope inside a function and in the exec
namespace at module level. -/
def setName (st : ExecSt) (n : String) (v : PValue) : ExecSt :=
  if st.inFn then { st with locals := ctxSet st.locals n v }
  else { st with globals := ctxSet st.globals n v }

/-- Attribute lookup; of the injected `html` module only `escape` is reached
by the generated code. -/
def getAttr (v : PValue) (f : String) : Except PyErr PValue :=
  match v with
  | PValue.vModule m =>
    if m = "html" && f = "escape" then .ok (PValue.vMethod "html" "escape")
    else .error (PyErr.attributeError f)
  | _ => .error (PyErr.attributeError f)

/-- Calling the modelled non-`write` callables: the builtin `str` (zero or
one argument) and `html.escape`; other values are not callable (or outside
the modelled fragment) and raise TypeError. -/
def evalCallBasic (st : ExecSt) (f : PValue) (args : List PValue) : Except PyErr (PValue × ExecSt) :=
  match f with
  | PValue.vBuiltin bn =>
    if bn = "str" then
      match args with
      | [] => .ok (PValue.vStr "", st)
      | [a] => .ok (PValue.vStr (pyStr a), st)
      | _ => .error (PyErr.typeError "str argument count")
    else .error (PyErr.typeError "object is not callable")
  | PValue.vMethod m fl =>
    if m = "html" && fl = "escape" then
      match args with
      | [PValue.vStr s] => .ok (PValue.vStr (htmlEscape s), st)
      | [_] => .error (PyErr.typeError "escape expects a str")
      | _ => .error (PyErr.typeError "escape argument count")
    else .error (PyErr.typeError "object is not callable")
  | _ => .error (PyErr.typeError "object is not callable")

/-- Calling any modelled callable.  The `write` closure's body is
`_buf.append(str(s))`: at call time CPython resolves the name `str` afresh —
the enclosing render function's local when the template assigned `str`,
otherwise the exec namespace `dict(context, html=html)`, otherwise the
builtins — and calls whatever it finds, appending the result to the buffer.
A context that binds the key `"str"` therefore shadows the builtin inside
`write`: a non-callable value aborts any text-emitting render with a
TypeError, and binding it to `write` itself recurses without bound
(RecursionError).  On the modelled callables `str(s)` always returns a
string, so the trailing arm is unreachable and conservatively an error. -/
def evalCall (st : ExecSt) (f : PValue) (args : List PValue) : Except PyErr (PValue × ExecSt) :=
  match f with
  | PValue.vBuiltin bn =>
    if bn = "write" then
      match args with
      | [_] => do
        let sf ← resolveName st "str"
        let (sv, st1) ←
          match sf with
          | PValue.vBuiltin bn2 =>
            if bn2 = "write" then .error PyErr.recursionError
            else evalCallBasic st (PValue.vBuiltin bn2) args
          | other => evalCallBasic st other args
        match sv with
        | PValue.vStr s2 => .ok (PValue.vNone, { st1 with buf := st1.buf ++ [s2] })
        | _ => .error (PyErr.typeError "buffer element outside the modelled fragment")
      | _ => .error (PyErr.typeError "write argument count")
    else evalCallBasic st f args
  | _ => evalCallBasic st f args

mutual

/-- Evaluate an expression left to right; the state can change because a call
to `write` appends to `_buf`. -/
def evalE : Nat → ExecSt → PExpr → Except PyErr (PValue × ExecSt)
  | 0, _, _ => .error PyErr.recursionError
  | fuel+1, st, e =>
    match e with
    | PExpr.name n => do
      let v ← resolveName st n
      .ok (v, st)
    | PExpr.intLit n => .ok (PValue.vInt n, st)
    | PExpr.strLit s => .ok (PValue.vStr s, st)
    | PExpr.boolLit b => .ok (PValue.vBool b, st)
    | PExpr.noneLit => .ok (PValue.vNone, st)
    | PExpr.attr e1 f => do
      let (v, st1) ← evalE fuel st e1
      let a ← getAttr v f
      .ok (a, st1)
    | PExpr.call f args => do
      let (fv, st1) ← evalE fuel st f
      let (avs, st2) ← evalList fuel st1 args
      evalCall st2 fv avs

def evalList : Nat → ExecSt → List PExpr → Except PyErr (List PValue × ExecSt)
  | 0, _, _ => .error PyErr.recursionError
  | _+1, st, [] => .ok ([], st)
  | fuel+1, st, a :: rest => do
    let (v, st1) ← evalE fuel st a
    let (vs, st2) ← evalList fuel st1 rest
    .ok (v :: vs, st2)

end

/-- The names assigned anywhere in a function body (Python's symbol-table
pass): plain assignment targets and the `def` / statement bindings `_buf`,
`write`, `_render`, looking through both arms of every `if`. -/
def assignedOf : Nat → List Blk → List String
  | 0, _ => []
  | _+1, [] => []
  | fuel+1, b :: rest =>
    (match b with
     | Blk.assign n _ => [n]
     | Blk.initBuf => ["_buf"]
     | Blk.defWrite => ["write"]
     | Blk.defRender _ => ["_render"]
     | Blk.ifElse _ thn els => assignedOf fuel thn ++ assignedOf fuel els
     | _ => []) ++ assignedOf fuel rest

/-- Execute the generated line `write(html.escape(str({expr})))`, resolving
`write`, `html`, `html.escape` and `str` and evaluating the embedded
expression in CPython's left-to-right order.  `efuel` bounds expression
nesting; the callers pass a bound derived from the template length, which
dominates the depth of any expression the parser can have produced. -/
def doWriteExpr (efuel : Nat) (st : ExecSt) (eo : Option PExpr) : Except PyErr ExecSt := do
  let w ← resolveName st "write"
  let h ← resolveName st "html"
  let esc ← getAttr h "escape"
  let sf ← resolveName st "str"
  let (argVals, st1) ←
    match eo with
    | none => pure ([], st)
    | some e => do
      let (v, s1) ← evalE efuel st e
      pure ([v], s1)
  let (sv, st2) ← evalCall st1 sf argVals
  let (ev, st3) ← evalCall st2 esc [sv]
  let (_, st4) ← evalCall st3 w [ev]
  .ok st4

/-- Execute a block list.  A set return value stops execution (Python's
`return` exits the function); an `if` runs exactly one arm; `return`
resolves `_buf` and returns `''.join(_buf)`. -/
def execBlks : Nat → Nat → ExecSt → List Blk → Except PyErr ExecSt
  | 0, _, _, _ => .error PyErr.recursionError
  | _+1, _, st, [] => .ok st
  | fuel+1, efuel, st, b :: rest =>
    if st.returned.isSome then .ok st
    else do
      let st' ←
        match b with
        | Blk.writeLit s => do
          let w ← resolveName st "write"
          let (_, st1) ← evalCall st w [PValue.vStr s]
          pure st1
        | Blk.writeExpr eo => doWriteExpr efuel st eo
        | Blk.assign n e => do
          let (v, st1) ← evalE efuel st e
          pure (setName st1 n v)
        | Blk.exprStmt e => do
          let (_, st1) ← evalE efuel st e
          pure st1
        | Blk.ifElse c thn els => do
          let (v, st1) ← evalE efuel st c
          if pyTruthy v then execBlks fuel efuel st1 thn else execBlks fuel efuel st1 els
        | Blk.defRender body => pure (setName st "_render" (PValue.vFunc body))
        | Blk.initBuf => pure (setName st "_buf" PValue.vBufObj)
        | Blk.defWrite => pure (setName st "write" (PValue.vBuiltin "write"))
        | Blk.ret => do
          let bv ← resolveName st "_buf"
          match bv with
          | PValue.vBufObj => pure { st with returned := some (PValue.vStr (String.join st.buf)) }
          | _ => .error (PyErr.typeError "join argument")
      execBlks fuel efuel st' rest

/-- Call the compiled `_render()` function: fresh local scope, the statically
computed local-name set, an empty buffer; the result is the returned value
(`None` if the function were to fall off the end).  `fuel` and `efuel` are
passed down from `renderNs`, which derives them from the generated module's
size; they strictly dominate the number of statements a loop-free run can
execute and the nesting depth of any parsed expression. -/
def callRender (fuel efuel : Nat) (ns : Ctx) (body : List Blk) : Except PyErr PValue := do
  let st0 : ExecSt :=
    { globals := ns, locals := emptyCtx, inFn := true,
      assigned := assignedOf fuel body, buf := [], returned := none }
  let st ← execBlks fuel efuel st0 body
  .ok (st.returned.getD PValue.vNone)

/-- The namespace built by `render`: `dict(context, html=html)` — a copy of
the context with the key `"html"` bound to the `html` module, overriding any
caller binding of that key. -/
def mkNamespace (context : Ctx) : Ctx :=
  fun k => if k = "html" then some (PValue.vModule "html") else context k

/-- Compile and run the generated module against an exec namespace, then call
`namespace["_render"]()`: the model of `exec(code, namespace)` followed by
`return namespace["_render"]()`. -/
def renderNs (src : String) (ns : Ctx) : Except PyErr PValue := do
  let tl ← mapMExc parseGenLine (moduleLines src)
  let fuel := 4 * tl.length + 16
  let efuel := 2 * src.data.length + 64
  let (modB, rest) ← parseB fuel 0 false tl
  if rest.isEmpty then do
    let st0 : ExecSt :=
      { globals := ns, locals := emptyCtx, inFn := false, assigned := [],
        buf := [], returned := none }
    let stM ← execBlks fuel efuel st0 modB
    match stM.globals "_render" with
    | some (PValue.vFunc body) => callRender fuel efuel stM.globals body
    | some _ => .error (PyErr.typeError "object is not callable")
    | none => .error (PyErr.keyError "_render")
  else .error (PyErr.syntaxError "invalid syntax")

/-- `TemplateEngine.render` (minus the file read): compile the template
source, `exec` it against `dict(context, html=html)` and call `_render()`. -/
def TemplateEngine.render (src : String) (context : Ctx) : Except PyErr PValue :=
  renderNs src (mkNamespace context)

/-! ## The router

`Router._routes` is a dict keyed by `(method.upper(), path)`; `add` stores
and `match` reads with `.get`, whose miss result is the `None` sentinel.
`String.toUpper` agrees with Python's `str.upper` on the ASCII method names
involved. -/

def Routes (H : Type) : Type := (String × String) → Option H

namespace Router

def empty {H : Type} : Routes H := fun _ => none

/-- `Router.add`: store under `(method.upper(), path)`. -/
def add {H : Type} (r : Routes H) (method path : String) (handler : H) : Routes H :=
  fun k => if k = (method.toUpper, path) then some handler else r k

/-- `Router.match`: `.get` under `(method.upper(), path)` (named `find` here
because `match` is reserved). -/
def find {H : Type} (r : Routes H) (method path : String) : Option H :=
  r (method.toUpper, path)

/-- Register a whole sequence of `add` calls in order. -/
def addAll {H : Type} (adds : List (String × String × H)) : Routes H :=
  adds.foldl (fun r a => add r a.1 a.2.1 a.2.2) empty

end Router

/-- The claim's description of `match` (stated from the spec's words, to be
compared with `Router.find`): the handler of the most recent `add` whose path
equals the queried path and whose method equals the queried method up to
letter case, and a not-found sentinel otherwise. -/
def lastMatching {H : Type} (adds : List (String × String × H)) (m p : String) : Option H :=
  (adds.reverse.find? fun a => a.1.toUpper == m.toUpper && a.2.1 == p).map fun a => a.2.2

end WebServer

open WebServer

/-! ## Theorems -/

section BasicLemmas

theorem strApp_data (a b : String) : (a ++ b).data = a.data ++ b.data := rfl

theorem strEq_of_data {a b : String} (h : a.data = b.data) : a = b := by
  cases a
  cases b
  exact congrArg String.mk h

theorem join_foldl_data (l : List String) (a : String) :
    (l.foldl (fun r s => r ++ s) a).data = a.data ++ (l.map String.data).flatten := by
  induction l generalizing a with
  | nil => simp
  | cons x t ih => simp [List.foldl_cons, ih, strApp_data]

theorem join_data (l : List String) : (String.join l).data = (l.map String.data).flatten := by
  simp [String.join, join_foldl_data]

theorem join_filter_ne_empty (l : List String) :
    String.join (l.filter fun p => !(p = "")) = String.join l := by
  apply strEq_of_data
  rw [join_data, join_data]
  induction l with
  | nil => rfl
  | cons x t ih =>
    by_cases hx : x = ""
    · subst hx
      simpa using ih
    · simp [List.filter_cons, hx, ih]

end BasicLemmas

section RouterLemmas

theorem find?_orElse_append {α : Type} (P : α → Bool) (l₁ l₂ : List α) :
    List.find? P (l₁ ++ l₂) = ((List.find? P l₁).orElse fun _ => List.find? P l₂) := by
  induction l₁ with
  | nil => simp [Option.orElse]
  | cons a t ih =>
    by_cases h : P a
    · simp [List.find?, h, Option.orElse]
    · simp only [List.cons_append, List.find?]
      rw [Bool.not_eq_true] at h
      simp [h, ih]

theorem routerFind_foldl {H : Type} (adds : List (String × String × H)) (r : Routes H)
    (m p : String) :
    Router.find (adds.foldl (fun r a => Router.add r a.1 a.2.1 a.2.2) r) m p
      = ((lastMatching adds m p).orElse fun _ => Router.find r m p) := by
  induction adds generalizing r with
  | nil => simp [lastMatching, Option.orElse]
  | cons a t ih =>
    rw [List.foldl_cons, ih]
    unfold lastMatching
    rw [List.reverse_cons, find?_orElse_append]
    cases hF : List.find? (fun a => a.1.toUpper == m.toUpper && a.2.1 == p) t.reverse with
    | some w => simp [Option.orElse, hF]
    | none =>
      simp only [Option.orElse, hF, Option.map]
      by_cases hP : (a.1.toUpper == m.toUpper && a.2.1 == p) = true
      · have hm : m.toUpper = a.1.toUpper := by
          have hand := (Bool.and_eq_true _ _).mp hP
          exact (eq_of_beq hand.1).symm
        have hp : p = a.2.1 := by
          have hand := (Bool.and_eq_true _ _).mp hP
          exact (eq_of_beq hand.2).symm
        simp [List.find?, hP, Router.find, Router.add, hm, hp]
      · rw [Bool.not_eq_true] at hP
        have hne : ¬ ((m.toUpper, p) = (a.1.toUpper, a.2.1)) := by
          intro he
          rw [Prod.mk.injEq] at he
          rw [he.1, he.2] at hP
          simp at hP
        simp [List.find?, hP, Router.find, Router.add, hne]

end RouterLemmas

/-- C9: after any sequence of `Router.add` calls, `match` returns the handler
of the most recent `add` whose path is exactly the queried path and whose
method agrees with the queried method up to letter case (last registration
wins), and the `None` sentinel — not an error — when no registration
matches. -/
theorem claim_C9_router_last_wins {H : Type} (adds : List (String × String × H))
    (m p : String) :
    Router.find (Router.addAll adds) m p = lastMatching adds m p := by
  rw [Router.addAll, routerFind_foldl]
  cases h : lastMatching adds m p with
  | some w => simp [Option.orElse, h]
  | none => simp [Option.orElse, h, Router.find, Router.empty]

/-- C10: renders against two contexts that differ only in the value bound to
the key `"html"` are identical, because the exec namespace
`dict(context, html=html)` always rebinds that key to the `html` module. -/
theorem claim_C10_html_unobservable (src : String) (ctxA ctxB : Ctx)
    (h : ∀ k, k ≠ "html" → ctxA k = ctxB k) :
    TemplateEngine.render src ctxA = TemplateEngine.render src ctxB := by
  unfold TemplateEngine.render
  have hn : mkNamespace ctxA = mkNamespace ctxB := by
    funext k
    by_cases hk : k = "html"
    · simp [mkNamespace, hk]
    · simp [mkNamespace, hk, h k hk]
  rw [hn]

/-- C10 witness: a concrete template and two concrete contexts differing only
at `"html"` render identically. -/
theorem claim_C10_witness :
    TemplateEngine.render "X<%= v %>"
        (fun k => if k = "html" then some (PValue.vInt 1)
                  else if k = "v" then some (PValue.vStr "a") else none)
      = TemplateEngine.render "X<%= v %>"
        (fun k => if k = "html" then some (PValue.vStr "b")
                  else if k = "v" then some (PValue.vStr "a") else none) := by
  apply claim_C10_html_unobservable
  intro k hk
  simp [hk]

/-- C1 counterexample: the builtin name `str` is not in the (empty) context,
yet the expression `str(0)` inside a tag evaluates successfully — template
code can resolve names outside the context, contradicting the claim that
only context names are accessible. -/
theorem claim_C1_counterexample :
    emptyCtx "str" = none ∧
      TemplateEngine.render "<%= str(0) %>" emptyCtx = Except.ok (PValue.vStr "0") :=
  ⟨rfl, rfl⟩

/-- C1 amended: template names resolve against the exec namespace — the copy
of the context extended with the `html` module and Python's builtins — and
assignments bind in the render function's local scope (visible to later
nodes of the same render), not in the caller's context: a context name
resolves to its context value, `html` resolves with an empty context, and an
assigned name is readable by a later node of the same render. -/
theorem claim_C1_namespace_resolution :
    TemplateEngine.render "<%= w %>"
        (fun k => if k = "w" then some (PValue.vStr "ok") else none)
      = Except.ok (PValue.vStr "ok") ∧
    TemplateEngine.render "<% h = html %>" emptyCtx = Except.ok (PValue.vStr "") ∧
    TemplateEngine.render "<% y = 2 %><%= y %>" emptyCtx = Except.ok (PValue.vStr "2") :=
  ⟨rfl, rfl, rfl⟩

/-- C2 counterexample: `"A<% x = 1"` opens a tag that is never closed, yet
rendering succeeds with output `"A"` — no MalformedTemplate (or any) error,
and the remainder is silently consumed as statement code. -/
theorem claim_C2_counterexample :
    hasOpen "A<% x = 1".data = true ∧ hasClose "A<% x = 1".data = false ∧
      TemplateEngine.render "A<% x = 1" emptyCtx = Except.ok (PValue.vStr "A") :=
  ⟨rfl, rfl, rfl⟩

/-- C2 amended: an unclosed tag is not detected; the remainder after the
opener is consumed as tag content and never emitted as text — rendering
succeeds silently when that content is empty or a valid statement, and
otherwise fails with a Python syntax error, not a MalformedTemplate error. -/
theorem claim_C2_unclosed_tag_behavior :
    TemplateEngine.render "A<%" emptyCtx = Except.ok (PValue.vStr "A") ∧
    TemplateEngine.render "A<% if x" emptyCtx
      = Except.error (PyErr.syntaxError "expected colon") :=
  ⟨rfl, rfl⟩

/-- C3 counterexample: `"<% endif %>"` contains an `endif` with no matching
`if`, yet rendering succeeds (with empty output) — no MalformedTemplate
error at parse or render time. -/
theorem claim_C3_counterexample :
    TemplateEngine.render "<% endif %>" emptyCtx = Except.ok (PValue.vStr "") := rfl

/-- C3 amended: an unmatched `endif` is not itself detected and never yields
a MalformedTemplate error (none exists in the code): `_compile` merely
decrements its indent counter, and whether the render fails depends on the
code generated from what follows — it can succeed with the imbalance
undetected (`"A<% endif %>"` renders `"A"`; with only further unmatched
endifs following, `"<% endif %><% endif %>"` renders `""`), or fail with a
Python indentation error when the dedent leaves an emitted line at column
zero before the fixed-indent footer (`"<% endif %>X"`). -/
theorem claim_C3_unmatched_endif_behavior :
    TemplateEngine.render "A<% endif %>" emptyCtx = Except.ok (PValue.vStr "A") ∧
    TemplateEngine.render "<% endif %><% endif %>" emptyCtx = Except.ok (PValue.vStr "") ∧
    TemplateEngine.render "<% endif %>X" emptyCtx
      = Except.error (PyErr.syntaxError "unexpected indent") :=
  ⟨rfl, rfl, rfl⟩

/-- C4 counterexample: the claim's template spells its tags without the
colons the engine requires (`if False`, `else`); the generated line `if False`
is not valid Python, so rendering fails with a syntax error instead of
producing `"B"`. -/
theorem claim_C4_counterexample :
    TemplateEngine.render "<% if False %>A<% else %>B<% endif %>" emptyCtx
        = Except.error (PyErr.syntaxError "expected colon") ∧
      ¬ TemplateEngine.render "<% if False %>A<% else %>B<% endif %>" emptyCtx
          = Except.ok (PValue.vStr "B") := by
  refine ⟨rfl, ?_⟩
  intro h
  rw [show TemplateEngine.render "<% if False %>A<% else %>B<% endif %>" emptyCtx
        = Except.error (PyErr.syntaxError "expected colon") from rfl] at h
  exact Except.noConfusion h

/-- C4 amended: with the colon forms the engine's tag syntax requires
(`if <expr>:`, `elif <expr>:`, `else:`), exactly one branch of an
`if`/`elif`/`else`/`endif` chain is rendered — the selected one — for every
context that does not bind the key `"str"`: the false-`if` template renders
exactly `"B"`, and an `if`/`elif`/`else` chain with a true `elif` renders
exactly `"C"`.  A context binding `"str"` (e.g. to `0`) shadows the builtin
the generated `write` helper resolves at call time, and the same template
then fails with a TypeError instead. -/
theorem claim_C4_branch_exclusivity (context : Ctx) (h : context "str" = none) :
    TemplateEngine.render "<% if False: %>A<% else: %>B<% endif %>" context
        = Except.ok (PValue.vStr "B") ∧
    TemplateEngine.render "<% if False: %>A<% elif True: %>C<% else: %>B<% endif %>" context
        = Except.ok (PValue.vStr "C") ∧
    TemplateEngine.render "<% if False: %>A<% else: %>B<% endif %>"
        (fun k => if k = "str" then some (PValue.vInt 0) else none)
        = Except.error (PyErr.typeError "object is not callable") := by
  have e : context = fun k => if k = "str" then none else context k := by
    funext k
    by_cases hk : k = "str"
    · rw [hk, h]
      simp
    · simp [hk]
  rw [e]
  exact ⟨rfl, rfl, rfl⟩

/-- C4 amended witness: the amended branch-exclusivity statement at the
empty context, which binds no `"str"` key. -/
theorem claim_C4_branch_exclusivity_witness :
    emptyCtx "str" = none ∧
    TemplateEngine.render "<% if False: %>A<% else: %>B<% endif %>" emptyCtx
        = Except.ok (PValue.vStr "B") ∧
    TemplateEngine.render "<% if False: %>A<% elif True: %>C<% else: %>B<% endif %>" emptyCtx
        = Except.ok (PValue.vStr "C") :=
  ⟨rfl, (claim_C4_branch_exclusivity emptyCtx rfl).1,
    (claim_C4_branch_exclusivity emptyCtx rfl).2.1⟩

/-- C5 counterexample: `html` (and the builtins reached through it) is not
defined in the (empty) context, yet the tag referencing it renders
successfully instead of failing with an undefined-variable error. -/
theorem claim_C5_counterexample :
    emptyCtx "html" = none ∧
      TemplateEngine.render "<%= html.escape(str(0)) %>" emptyCtx
        = Except.ok (PValue.vStr "0") :=
  ⟨rfl, rfl⟩

/-- C5 amended: a name resolvable neither in the render function's local
scope, nor in the exec namespace (the context plus the `html` binding), nor
in the builtins fails the render with a NameError; the failure is fatal and
no partial output is returned (text already emitted before the failing tag
is discarded). -/
theorem claim_C5_undefined_name_fatal :
    TemplateEngine.render "A<%= zzz %>B" emptyCtx
        = Except.error (PyErr.nameError "zzz") ∧
    TemplateEngine.render "A<%= zzz %>B"
        (fun k => if k = "other" then some (PValue.vInt 5) else none)
        = Except.error (PyErr.nameError "zzz") :=
  ⟨rfl, rfl⟩

/-- C6: the value emitted by an expression tag is converted to text and
HTML-escaped before being appended: for every string value of `v`, the tag
emits exactly `htmlEscape` of it; with `v = "<b>"` the output is the literal
`&lt;b&gt;`, and the end-to-end template yields
`Hello, &lt;script&gt;!`. -/
theorem claim_C6_expression_escaping :
    (∀ s : String,
      TemplateEngine.render "<%= v %>"
          (fun k => if k = "v" then some (PValue.vStr s) else none)
        = Except.ok (PValue.vStr (htmlEscape s))) ∧
    TemplateEngine.render "<%= v %>"
        (fun k => if k = "v" then some (PValue.vStr "<b>") else none)
      = Except.ok (PValue.vStr "&lt;b&gt;") ∧
    TemplateEngine.render "Hello, <%= name %>!"
        (fun k => if k = "name" then some (PValue.vStr "<script>") else none)
      = Except.ok (PValue.vStr "Hello, &lt;script&gt;!") :=
  ⟨fun _ => rfl, rfl, rfl⟩

/-- C7: a statement tag's context mutation is visible to the following nodes
of the same render and the statement emits nothing itself:
`<% x = 1 %><%= x %>` renders exactly `"1"`. -/
theorem claim_C7_statement_mutation_visible :
    TemplateEngine.render "<% x = 1 %><%= x %>" emptyCtx
      = Except.ok (PValue.vStr "1") := rfl

section LiteralRenderLemmas

theorem splitTokens_no_delims (cs acc : List Char) (h1 : hasOpen cs = false)
    (h2 : hasClose cs = false) :
    splitTokens cs acc = [String.mk (acc.reverse ++ cs)] := by
  induction cs, acc using splitTokens.induct with
  | case1 acc => simp [splitTokens]
  | case2 rest acc => simp [hasOpen, startsOpen] at h1
  | case3 rest acc => simp [hasOpen, startsOpen] at h1
  | case4 rest acc => simp [hasClose, startsClose] at h2
  | case5 c rest acc hn1 hn2 hn3 ih =>
    have h1r : hasOpen rest = false := by
      rw [hasOpen] at h1
      exact (Bool.or_eq_false_iff.mp h1).2
    have h2r : hasClose rest = false := by
      rw [hasClose] at h2
      exact (Bool.or_eq_false_iff.mp h2).2
    rw [splitTokens]
    any_goals (first | exact hn1 | exact hn2 | exact hn3)
    rw [ih h1r h2r]
    simp

theorem splitlinesKeep_flatten (cs acc : List Char) :
    ((splitlinesKeep cs acc).map String.data).flatten = acc.reverse ++ cs := by
  induction cs, acc using splitlinesKeep.induct with
  | case1 acc h => simp [splitlinesKeep, h, List.isEmpty_iff.mp h]
  | case2 acc h => simp [splitlinesKeep, h]
  | case3 rest acc ih => simp [splitlinesKeep, ih]
  | case4 rest acc hn ih =>
    rw [splitlinesKeep]
    any_goals exact hn
    simp [ih]
  | case5 rest acc ih => simp [splitlinesKeep, ih]
  | case6 c rest acc hn1 hn2 hn3 ih =>
    rw [splitlinesKeep]
    any_goals (first | exact hn1 | exact hn2 | exact hn3)
    rw [ih]
    simp

theorem filterMap_writes (l : List String) (lv : Nat) :
    (l.filterMap fun part => if part = "" then none else some (lv, GenLine.writeLit part))
      = (l.filter fun p => !(p = "")).map fun p => (lv, GenLine.writeLit p) := by
  induction l with
  | nil => rfl
  | cons x t ih =>
    by_cases hx : x = "" <;> simp [List.filterMap_cons, List.filter_cons, hx, ih]

theorem compileBody_no_delims (src : String) (h1 : hasOpen src.data = false)
    (h2 : hasClose src.data = false) :
    compileBody src = (splitlinesTrue src).filterMap
      fun part => if part = "" then none else some (1, GenLine.writeLit part) := by
  have e1 : ¬ (src = "<%") := by
    intro e
    rw [e] at h1
    exact absurd h1 (by decide)
  have e2 : ¬ (src = "<%=") := by
    intro e
    rw [e] at h1
    exact absurd h1 (by decide)
  have e3 : ¬ (src = "%>") := by
    intro e
    rw [e] at h2
    exact absurd h2 (by decide)
  unfold compileBody
  rw [splitTokens_no_delims src.data [] h1 h2]
  show (compileTok ⟨CMode.text, 1, []⟩ (String.mk src.data)).lines = _
  have hsrc : String.mk src.data = src := rfl
  rw [hsrc]
  rw [compileTok]
  simp [e1, e2, e3]

theorem mapMExc_writes (parts : List String) (r : List (Nat × GenLine))
    (res : List (Nat × TStmt)) (hr : mapMExc parseGenLine r = .ok res) :
    mapMExc parseGenLine ((parts.map fun p => ((1 : Nat), GenLine.writeLit p)) ++ r)
      = .ok ((parts.map fun p => ((1 : Nat), TStmt.writeLit p)) ++ res) := by
  induction parts with
  | nil => simpa using hr
  | cons p t ih =>
    simp only [List.map_cons, List.cons_append, mapMExc, parseGenLine, List.append_eq]
    rw [ih]
    rfl

theorem mapMExc_module (src : String) (h1 : hasOpen src.data = false)
    (h2 : hasClose src.data = false) :
    mapMExc parseGenLine (moduleLines src)
      = .ok ((0, TStmt.defRender) :: (1, TStmt.initBuf) :: (1, TStmt.defWrite) ::
          ((((splitlinesTrue src).filter fun p => !(p = "")).map
              fun p => ((1 : Nat), TStmt.writeLit p)) ++ [(1, TStmt.ret)])) := by
  unfold moduleLines
  rw [compileBody_no_delims src h1 h2, filterMap_writes]
  have hr : mapMExc parseGenLine [(1, GenLine.ret)] = .ok [(1, TStmt.ret)] := rfl
  have hmid := mapMExc_writes ((splitlinesTrue src).filter fun p => !(p = ""))
    [(1, GenLine.ret)] [(1, TStmt.ret)] hr
  simp only [mapMExc, parseGenLine, List.append_eq]
  rw [hmid]
  rfl

theorem parseB_writeList (parts : List String) :
    ∀ (fuel : Nat), parts.length + 2 ≤ fuel →
    parseB fuel 1 true ((parts.map fun p => ((1 : Nat), TStmt.writeLit p)) ++ [(1, TStmt.ret)])
      = .ok (parts.map Blk.writeLit ++ [Blk.ret], []) := by
  induction parts with
  | nil =>
    intro fuel hf
    cases fuel with
    | zero => omega
    | succ f =>
      cases f with
      | zero => omega
      | succ g => rfl
  | cons p t ih =>
    intro fuel hf
    cases fuel with
    | zero => omega
    | succ f =>
      have hf2 : t.length + 2 ≤ f := by
        simp only [List.length_cons] at hf
        omega
      simp only [List.map_cons, List.cons_append, parseB, List.append_eq]
      rw [ih f hf2]
      rfl

theorem parseB_module (parts : List String) (fuel : Nat) (hf : parts.length + 8 ≤ fuel) :
    parseB fuel 0 false ((0, TStmt.defRender) :: (1, TStmt.initBuf) :: (1, TStmt.defWrite) ::
        ((parts.map fun p => ((1 : Nat), TStmt.writeLit p)) ++ [(1, TStmt.ret)]))
      = .ok ([Blk.defRender (Blk.initBuf :: Blk.defWrite ::
          (parts.map Blk.writeLit ++ [Blk.ret]))], []) := by
  cases fuel with
  | zero => omega
  | succ f =>
    cases f with
    | zero => omega
    | succ g =>
      cases g with
      | zero => omega
      | succ h =>
        have hw : parts.length + 2 ≤ h := by omega
        simp only [parseB]
        rw [parseB_writeList parts h hw]
        rfl

theorem assignedOf_writeList (parts : List String) :
    ∀ (fuel : Nat), parts.length + 2 ≤ fuel →
    assignedOf fuel (parts.map Blk.writeLit ++ [Blk.ret]) = [] := by
  induction parts with
  | nil =>
    intro fuel hf
    cases fuel with
    | zero => omega
    | succ f =>
      cases f with
      | zero => omega
      | succ g => rfl
  | cons p t ih =>
    intro fuel hf
    cases fuel with
    | zero => omega
    | succ f =>
      have hf2 : t.length + 2 ≤ f := by
        simp only [List.length_cons] at hf
        omega
      simp only [List.map_cons, List.cons_append, assignedOf, List.append_eq]
      rw [ih f hf2]
      rfl

theorem assignedOf_renderBody (parts : List String) (fuel : Nat)
    (hf : parts.length + 4 ≤ fuel) :
    assignedOf fuel (Blk.initBuf :: Blk.defWrite :: (parts.map Blk.writeLit ++ [Blk.ret]))
      = ["_buf", "write"] := by
  cases fuel with
  | zero => omega
  | succ f =>
    cases f with
    | zero => omega
    | succ g =>
      have hw : parts.length + 2 ≤ g := by omega
      simp only [assignedOf]
      rw [assignedOf_writeList parts g hw]
      rfl

theorem execBlks_writeList (parts : List String) :
    ∀ (fuel efuel : Nat) (g l : Ctx) (bufv : List String), parts.length + 2 ≤ fuel →
    g "str" = none →
    l "write" = some (PValue.vBuiltin "write") →
    l "_buf" = some PValue.vBufObj →
    execBlks fuel efuel ⟨g, l, true, ["_buf", "write"], bufv, none⟩
        (parts.map Blk.writeLit ++ [Blk.ret])
      = .ok ⟨g, l, true, ["_buf", "write"], bufv ++ parts,
             some (PValue.vStr (String.join (bufv ++ parts)))⟩ := by
  induction parts with
  | nil =>
    intro fuel efuel g l bufv hf hg hw hb
    cases fuel with
    | zero => omega
    | succ f =>
      cases f with
      | zero => omega
      | succ k =>
        simp only [List.map_nil, List.nil_append, execBlks, resolveName, hb, List.append_nil]
        rfl
  | cons p t ih =>
    intro fuel efuel g l bufv hf hg hw hb
    cases fuel with
    | zero => omega
    | succ f =>
      have hf2 : t.length + 2 ≤ f := by
        simp only [List.length_cons] at hf
        omega
      have hx := ih f efuel g l (bufv ++ [pyStr (PValue.vStr p)]) hf2 hg hw hb
      simp [execBlks, resolveName, hw, hg, evalCall, evalCallBasic, pyBuiltins, pyStr]
      exact hx.trans (by simp [pyStr, List.append_assoc])

theorem execBlks_defRender (fuel efuel : Nat) (hf : 2 ≤ fuel) (g : Ctx) (body : List Blk) :
    execBlks fuel efuel ⟨g, emptyCtx, false, [], [], none⟩ [Blk.defRender body]
      = .ok ⟨ctxSet g "_render" (PValue.vFunc body), emptyCtx, false, [], [], none⟩ := by
  cases fuel with
  | zero => omega
  | succ f =>
    cases f with
    | zero => omega
    | succ k => rfl

theorem callRender_writes (parts : List String) (fuel efuel : Nat)
    (hf : parts.length + 8 ≤ fuel) (gl : Ctx) (hgs : gl "str" = none) :
    callRender fuel efuel gl (Blk.initBuf :: Blk.defWrite :: (parts.map Blk.writeLit ++ [Blk.ret]))
      = .ok (PValue.vStr (String.join parts)) := by
  unfold callRender
  rw [assignedOf_renderBody parts fuel (by omega)]
  cases fuel with
  | zero => omega
  | succ f =>
    cases f with
    | zero => omega
    | succ k =>
      have hW := execBlks_writeList parts k efuel gl
        (ctxSet (ctxSet emptyCtx "_buf" PValue.vBufObj) "write" (PValue.vBuiltin "write"))
        [] (by omega) hgs rfl rfl
      have hstep : execBlks (k + 1 + 1) efuel
          ⟨gl, emptyCtx, true, ["_buf", "write"], [], none⟩
          (Blk.initBuf :: Blk.defWrite :: (parts.map Blk.writeLit ++ [Blk.ret]))
          = .ok ⟨gl, ctxSet (ctxSet emptyCtx "_buf" PValue.vBufObj) "write" (PValue.vBuiltin "write"),
                 true, ["_buf", "write"], [] ++ parts,
                 some (PValue.vStr (String.join ([] ++ parts)))⟩ := hW
      simp only [hstep]
      rfl

theorem except_bind_ok {e a b : Type} (x : a) (f : a → Except e b) :
    (Except.ok x : Except e a) >>= f = f x := rfl

theorem renderNs_literal (src : String) (ns : Ctx) (h1 : hasOpen src.data = false)
    (h2 : hasClose src.data = false) (hs : ns "str" = none) :
    renderNs src ns = .ok (PValue.vStr src) := by
  have hparts : String.join ((splitlinesTrue src).filter fun p => !(p = "")) = src := by
    rw [join_filter_ne_empty]
    apply strEq_of_data
    rw [join_data]
    simpa [splitlinesTrue] using splitlinesKeep_flatten src.data []
  unfold renderNs
  rw [mapMExc_module src h1 h2]
  simp only [except_bind_ok]
  generalize hP : List.filter (fun p => !decide (p = "")) (splitlinesTrue src) = P
  rw [hP] at hparts
  generalize hF : 4 * ((0, TStmt.defRender) :: (1, TStmt.initBuf) :: (1, TStmt.defWrite) ::
      (List.map (fun p => ((1 : Nat), TStmt.writeLit p)) P ++ [(1, TStmt.ret)])).length + 16 = F
  have hFge : P.length + 8 ≤ F := by
    rw [← hF]
    simp only [List.length_cons, List.length_append, List.length_map]
    omega
  rw [parseB_module P F hFge]
  simp only [except_bind_ok, List.isEmpty_nil, if_true]
  rw [execBlks_defRender F (2 * src.data.length + 64) (by omega) ns
      (Blk.initBuf :: Blk.defWrite :: (List.map Blk.writeLit P ++ [Blk.ret]))]
  simp only [except_bind_ok, ctxSet]
  simp only [if_pos]
  rw [callRender_writes P F (2 * src.data.length + 64) hFge _ (by simp [ctxSet, hs])]
  rw [hparts]

end LiteralRenderLemmas

/-- C8 counterexample: a delimiter-free source does NOT round-trip against
every context — a context binding the key `"str"` (here to `0`) shadows the
builtin that the generated `write` closure resolves at call time, and the
render of the plain text `"a"` fails with a TypeError instead of returning
`"a"`. -/
theorem claim_C8_counterexample :
    hasOpen "a".data = false ∧ hasClose "a".data = false ∧
    TemplateEngine.render "a" (fun k => if k = "str" then some (PValue.vInt 0) else none)
      = Except.error (PyErr.typeError "object is not callable") :=
  ⟨rfl, rfl, rfl⟩

/-- C8 amended: a template source containing none of the delimiters `<%`,
`<%=`, `%>` renders to exactly the source text unchanged, including all
whitespace and newlines, against every context that does not bind the key
`"str"` (a `"str"` binding shadows the builtin inside the generated `write`
helper and breaks text emission). -/
theorem claim_C8_literal_roundtrip (src : String) (context : Ctx)
    (h1 : hasOpen src.data = false) (h2 : hasClose src.data = false)
    (hs : context "str" = none) :
    TemplateEngine.render src context = Except.ok (PValue.vStr src) := by
  unfold TemplateEngine.render
  exact renderNs_literal src (mkNamespace context) h1 h2 (by simp [mkNamespace, hs])

/-- C8 witness: the round-trip theorem applied to a concrete delimiter-free
template with whitespace and a newline, against the empty context. -/
theorem claim_C8_witness :
    hasOpen "Hello,\n  world! 100% <plain>".data = false ∧
    hasClose "Hello,\n  world! 100% <plain>".data = false ∧
    emptyCtx "str" = none ∧
    TemplateEngine.render "Hello,\n  world! 100% <plain>" emptyCtx
      = Except.ok (PValue.vStr "Hello,\n  world! 100% <plain>") :=
  ⟨by decide, by decide, rfl,
    claim_C8_literal_roundtrip "Hello,\n  world! 100% <plain>" emptyCtx
      (by decide) (by decide) rfl⟩
